import Mathlib

/-!
Verification development for the custom-claims script runtime and deployment-state
merger of `packages/core/src/libraries/jwt-customizer.ts`.

The development shallowly embeds the two cores of the library:

1. the deployment merger (`deployJwtCustomizerScript` / `undeployJwtCustomizerScript`),
   built on the npm `deepmerge` library, acting on JSON-like deployment documents; and
2. the sandbox executor (`runScriptInLocalVm`), modelled as a function over the
   abstract outcomes of the two `node:vm` evaluations it performs, together with the
   error classification of its catch block (`buildErrorResponse`, `ResponseError`).

External collaborators (npm `deepmerge`, `zod` record parsing, `node:vm` semantics,
`Object.freeze`) are modelled from their documented behaviour; parts of the repository
that are referenced but not included in the sources (the `@logto/schemas` enums,
`getJwtCustomizerScripts`, the shape returned by `getJwtCustomizers`) are modelled
from the specification and marked as such in their doc comments.
-/

/-- Enumerated identity of a customizer slot, from the `LogtoJwtTokenKey` enum of
`@logto/schemas`. Modelled from the spec: one value per supported token type; the
source comments state there are at most 4 scripts (`data[CustomJwtType][UseCase]`),
hence two token keys. The string values are the JSON keys used in documents. -/
inductive TokenKey where
  | accessToken
  | clientCredentials
deriving DecidableEq, Repr

/-- The JSON key under which a token key appears in a deployment document. -/
def TokenKey.keyName : TokenKey → String
  | .accessToken => "jwt.accessToken"
  | .clientCredentials => "jwt.clientCredentials"

/-- Enumerated execution mode of a customizer script: `test` or `production`. -/
inductive UseCase where
  | production
  | test
deriving DecidableEq, Repr

/-- The JSON key under which a use case appears in a token-key entry. -/
def UseCase.name : UseCase → String
  | .production => "production"
  | .test => "test"

/-- JSON-like values appearing in deployment documents handled by the merger:
`undefined`, script source strings, and plain objects (ordered string-keyed field
lists, as JavaScript objects). Deployment documents never contain arrays, so the
array branch of the merge library is not needed on this type. -/
inductive DocVal where
  | undef
  | str (s : String)
  | obj (fields : List (String × DocVal))

namespace DocVal

/-- The `isMergeableObject` predicate of the `deepmerge` library, restricted to the
values occurring in deployment documents: plain objects are mergeable, `undefined`
and strings are not. -/
def isMergeableObject : DocVal → Bool
  | .obj _ => true
  | _ => false

/-- The own enumerable keys with values (`getKeys` of the `deepmerge` library):
the field list of an object, empty for non-objects. -/
def objFields : DocVal → List (String × DocVal)
  | .obj fs => fs
  | _ => []

end DocVal

/-- Lookup of an own property in a JavaScript-object field list. -/
def lookupField : List (String × DocVal) → String → Option DocVal
  | [], _ => none
  | (k, v) :: rest, key => if k = key then some v else lookupField rest key

/-- JavaScript property assignment on an ordered field list: an existing key keeps
its position and gets the new value, a new key is appended. -/
def setField : List (String × DocVal) → String → DocVal → List (String × DocVal)
  | [], key, v => [(key, v)]
  | (k, w) :: rest, key, v =>
    if k = key then (key, v) :: rest else (k, w) :: setField rest key v

/-- The `key in target` test used by `deepmerge` (`propertyIsOnObject`). -/
def hasFieldD (t : DocVal) (key : String) : Bool :=
  (lookupField t.objFields key).isSome

/-- The `target[key]` access used by `deepmerge`; JavaScript yields `undefined`
for a missing property. -/
def getFieldD (t : DocVal) (key : String) : DocVal :=
  (lookupField t.objFields key).getD .undef

mutual

/-- Model of the npm `deepmerge` library (default options) on deployment-document
values. Both arguments at every call site are non-array JSON values, so the merge
always runs `mergeObject`: the destination starts as a copy of the target fields
(when the target is mergeable) and every source key is then assigned — recursively
merged when the key is on the target and the source value is mergeable, otherwise
cloned (cloning is the identity on pure values). Note that a source value of
`undefined` is not mergeable, so the key is assigned `undefined`: `deepmerge`
never deletes a key. -/
def deepmergeD (t s : DocVal) : DocVal :=
  .obj (mergeFields t (if t.isMergeableObject then t.objFields else []) s.objFields)
termination_by sizeOf s + 1
decreasing_by
  all_goals simp_wf
  cases s
  all_goals simp [DocVal.objFields]
  all_goals omega

/-- The source-key assignment loop of `mergeObject` in the `deepmerge` library:
destination accumulates assignments of the source fields in order. The
prototype-pollution guard (`propertyIsUnsafe`) never fires on own string keys and
is omitted. -/
def mergeFields (t : DocVal) (dest : List (String × DocVal)) :
    List (String × DocVal) → List (String × DocVal)
  | [] => dest
  | (k, sv) :: rest =>
    let merged :=
      if hasFieldD t k && sv.isMergeableObject then deepmergeD (getFieldD t k) sv else sv
    mergeFields t (setField dest k merged) rest
termination_by l => sizeOf l
decreasing_by
  all_goals simp_wf
  all_goals omega

end

/-- Read the entry of a token key in a deployment document. -/
def getKey (doc : DocVal) (k : TokenKey) : Option DocVal :=
  match doc with
  | .obj fs => lookupField fs k.keyName
  | _ => none

/-- Read the script slot addressed by a (TokenKey, UseCase) pair in a deployment
document. -/
def readSlot (doc : DocVal) (k : TokenKey) (u : UseCase) : Option DocVal :=
  match getKey doc k with
  | some (.obj fs) => lookupField fs u.name
  | _ => none

/-- Modelled from the spec: the stored configuration of one token key
(`CustomizerEntry`, persisted by the configuration store, whose row type lives in
`@logto/schemas` outside the included sources). It holds at most one script per
use case; environment variables are irrelevant to the merger and omitted. -/
structure CustomizerEntry where
  production : Option String
  test : Option String

/-- Modelled from the spec: the configuration-store view returned by
`getJwtCustomizers()` — a mapping from token key to its configured customizer
entry, containing only configured keys (a key with no scripts left is absent). -/
structure JwtCustomizers where
  accessToken : Option CustomizerEntry
  clientCredentials : Option CustomizerEntry

/-- The entry configured for a token key, as read by `jwtCustomizers[key]`. -/
def JwtCustomizers.lookup (cs : JwtCustomizers) : TokenKey → Option CustomizerEntry
  | .accessToken => cs.accessToken
  | .clientCredentials => cs.clientCredentials

/-- The number of configured customizers, as computed by
`Object.entries(jwtCustomizers).length` in `undeployJwtCustomizerScript`. -/
def configuredCount (cs : JwtCustomizers) : Nat :=
  (if cs.accessToken.isSome then 1 else 0) +
    (if cs.clientCredentials.isSome then 1 else 0)

/-- The use-case slots of a configured entry, in document order: only present
scripts produce a slot. -/
def entrySlots (e : CustomizerEntry) : List (String × DocVal) :=
  (match e.production with
    | some s => [("production", DocVal.str s)]
    | none => []) ++
    (match e.test with
      | some s => [("test", DocVal.str s)]
      | none => [])

/-- The token-key entries of the rebuilt deployment document, in key order. -/
def scriptsFields (cs : JwtCustomizers) : List (String × DocVal) :=
  (match cs.accessToken with
    | some e => [(TokenKey.accessToken.keyName, DocVal.obj (entrySlots e))]
    | none => []) ++
    (match cs.clientCredentials with
      | some e => [(TokenKey.clientCredentials.keyName, DocVal.obj (entrySlots e))]
      | none => [])

/-- Modelled from the spec: `getJwtCustomizerScripts` (in
`src/utils/custom-jwt`, outside the included sources) rebuilds the deployment
document from the configured customizers — a mapping from token key to a mapping
from use case to script source, containing only slots that correspond to at least
one configured script. -/
def getJwtCustomizerScripts (cs : JwtCustomizers) : DocVal :=
  .obj (scriptsFields cs)

/-- The single-slot upsert patch built by `deployJwtCustomizerScript`:
`\x7b [payload.key]: \x7b [payload.useCase]: payload.value.script \x7d \x7d`. -/
def upsertPatch (k : TokenKey) (u : UseCase) (script : String) : DocVal :=
  .obj [(k.keyName, .obj [(u.name, .str script)])]

/-- The merge performed by `deployJwtCustomizerScript`:
`deepmerge(customizerScriptsFromDatabase, newCustomizerScripts)` for an upsert. -/
def applyUpsert (current : DocVal) (k : TokenKey) (u : UseCase) (script : String) :
    DocVal :=
  deepmergeD current (upsertPatch k u script)

/-- Embedding of `deployJwtCustomizerScript`: when the cloud execution mode is
active, the body pushed to the worker service is the deep merge of the document
rebuilt from the database with the single-slot patch; otherwise the call is a
no-op (`none`). -/
def deployJwtCustomizerScript (isCloud : Bool) (cs : JwtCustomizers) (k : TokenKey)
    (u : UseCase) (script : String) : Option DocVal :=
  if isCloud then some (applyUpsert (getJwtCustomizerScripts cs) k u script) else none

/-- The removal patch built by `undeployJwtCustomizerScript`:
`\x7b [key]: \x7b production: undefined, test: undefined \x7d \x7d`. -/
def removalPatch (k : TokenKey) : DocVal :=
  .obj [(k.keyName, .obj [("production", .undef), ("test", .undef)])]

/-- The merge performed by `undeployJwtCustomizerScript` when other customizers
remain configured. -/
def applyRemoval (current : DocVal) (k : TokenKey) : DocVal :=
  deepmergeD current (removalPatch k)

/-- The externally visible action taken by `undeployJwtCustomizerScript`. -/
inductive UndeployAction where
  | noop
  | notFound
  | teardown
  | push (body : DocVal)

/-- Embedding of `undeployJwtCustomizerScript`: no-op unless the cloud execution
mode is active; `assert(jwtCustomizers[key], ...)` raises an
`entity.not_exists` request error when the key is not configured; when the only
configured customizer is being deleted the worker is deleted
(`Object.entries(jwtCustomizers).length === 1`); otherwise the removal patch is
deep-merged into the document rebuilt from the database and pushed. -/
def undeployJwtCustomizerScript (isCloud : Bool) (cs : JwtCustomizers)
    (k : TokenKey) : UndeployAction :=
  if !isCloud then .noop
  else if (cs.lookup k).isNone then .notFound
  else if configuredCount cs = 1 then .teardown
  else .push (applyRemoval (getJwtCustomizerScripts cs) k)

theorem lookupField_setField_self (fs : List (String × DocVal)) (key : String)
    (v : DocVal) : lookupField (setField fs key v) key = some v := by
  induction fs with
  | nil => simp [setField, lookupField]
  | cons p rest ih =>
    obtain ⟨k1, v1⟩ := p
    by_cases h : k1 = key
    · simp [setField, h, lookupField]
    · simp [setField, h, lookupField, ih]

theorem lookupField_setField_ne (fs : List (String × DocVal)) (key key' : String)
    (v : DocVal) (h : key' ≠ key) :
    lookupField (setField fs key v) key' = lookupField fs key' := by
  have hs : ¬ key = key' := fun hh => h hh.symm
  induction fs with
  | nil => simp [setField, lookupField, hs]
  | cons p rest ih =>
    obtain ⟨k1, v1⟩ := p
    by_cases h1 : k1 = key
    · subst h1
      simp [setField, lookupField, hs]
    · simp [setField, lookupField, h1, ih]

theorem TokenKey.keyName_inj {k k' : TokenKey} (h : k.keyName = k'.keyName) :
    k = k' := by
  cases k <;> cases k' <;> simp_all [TokenKey.keyName]

theorem UseCase.name_inj {u u' : UseCase} (h : u.name = u'.name) : u = u' := by
  cases u <;> cases u' <;> simp_all [UseCase.name]

theorem lookupField_objFields (t : DocVal) (key : String) :
    lookupField (if t.isMergeableObject then t.objFields else []) key =
      match t with
      | .obj fs => lookupField fs key
      | _ => none := by
  cases t <;> simp [DocVal.isMergeableObject, DocVal.objFields, lookupField]

theorem deepmergeD_singlePatch (t : DocVal) (key : String) (pv : DocVal)
    (hp : pv.isMergeableObject = true) :
    deepmergeD t (.obj [(key, pv)]) =
      .obj (setField (if t.isMergeableObject then t.objFields else []) key
        (if hasFieldD t key then deepmergeD (getFieldD t key) pv else pv)) := by
  rw [deepmergeD]
  simp only [DocVal.objFields]
  rw [mergeFields, mergeFields]
  simp [hp]

theorem deepmergeD_slotPatch (tv : DocVal) (uname : String) (s : String) :
    deepmergeD tv (.obj [(uname, .str s)]) =
      .obj (setField (if tv.isMergeableObject then tv.objFields else []) uname
        (.str s)) := by
  rw [deepmergeD]
  simp only [DocVal.objFields]
  rw [mergeFields, mergeFields]
  simp [DocVal.isMergeableObject]

theorem deepmergeD_removalEntry (tv : DocVal) :
    deepmergeD tv (.obj [("production", .undef), ("test", .undef)]) =
      .obj (setField
        (setField (if tv.isMergeableObject then tv.objFields else [])
          "production" .undef) "test" .undef) := by
  rw [deepmergeD]
  simp only [DocVal.objFields]
  rw [mergeFields, mergeFields, mergeFields]
  simp [DocVal.isMergeableObject]

theorem tokenKey_forall (p : TokenKey → Prop) :
    (∀ k, p k) ↔ (p .accessToken ∧ p .clientCredentials) :=
  ⟨fun h => ⟨h _, h _⟩, fun h k => by cases k <;> tauto⟩

theorem lookupField_scripts (cs : JwtCustomizers) (k : TokenKey) :
    lookupField (scriptsFields cs) k.keyName =
      (cs.lookup k).map (fun e => DocVal.obj (entrySlots e)) := by
  cases k <;> rcases cs with ⟨a, c⟩ <;> cases a <;> cases c <;>
    simp [scriptsFields, JwtCustomizers.lookup, TokenKey.keyName, lookupField]

/-- C7: for every current deployment document and every (TokenKey, UseCase, script)
triple, the merge performed by `deployJwtCustomizerScript` (`applyUpsert`) leaves the
addressed slot holding exactly the script written, leaves every other token-key entry
unchanged, and never nulls out or alters the sibling use-case slot under the same
key. -/
theorem applyUpsert_writes_and_frames (t : DocVal) (k k' : TokenKey) (u u' : UseCase)
    (s : String) (hk : k' ≠ k) (hu : u' ≠ u) :
    readSlot (applyUpsert t k u s) k u = some (.str s) ∧
    getKey (applyUpsert t k u s) k' = getKey t k' ∧
    readSlot (applyUpsert t k u s) k u' = readSlot t k u' := by
  have hkey : ¬ (k.keyName = k'.keyName) := fun hh => hk (TokenKey.keyName_inj hh).symm
  have huname : ¬ (u.name = u'.name) := fun hh => hu (UseCase.name_inj hh).symm
  have hkey2 : k'.keyName ≠ k.keyName := fun hh => hkey hh.symm
  have huname2 : u'.name ≠ u.name := fun hh => huname hh.symm
  rw [applyUpsert, upsertPatch,
    deepmergeD_singlePatch t k.keyName (.obj [(u.name, .str s)]) rfl]
  rcases t with _ | s0 | tf
  · simp [hasFieldD, getFieldD, DocVal.objFields, DocVal.isMergeableObject, lookupField,
      getKey, readSlot, setField, hkey, huname]
  · simp [hasFieldD, getFieldD, DocVal.objFields, DocVal.isMergeableObject, lookupField,
      getKey, readSlot, setField, hkey, huname]
  · rcases he : lookupField tf k.keyName with _ | tv
    · simp [hasFieldD, getFieldD, DocVal.objFields, DocVal.isMergeableObject, he,
        getKey, readSlot, lookupField_setField_self,
        lookupField_setField_ne _ _ _ _ hkey2, lookupField, huname]
    · simp only [hasFieldD, getFieldD, DocVal.objFields, DocVal.isMergeableObject, he,
        Option.isSome_some, Option.getD_some, if_true, deepmergeD_slotPatch]
      refine ⟨?_, ?_, ?_⟩
      · simp [readSlot, getKey, lookupField_setField_self]
      · simp [getKey, lookupField_setField_ne _ _ _ _ hkey2]
      · simp [readSlot, getKey, lookupField_setField_self, he,
          lookupField_setField_ne _ _ _ _ huname2, lookupField_objFields]
        cases tv <;> simp [DocVal.isMergeableObject, DocVal.objFields, lookupField]

/-- Witness for C7 at a concrete input. -/
theorem applyUpsert_writes_and_frames_witness :
    (TokenKey.clientCredentials ≠ TokenKey.accessToken) ∧
    (UseCase.test ≠ UseCase.production) ∧
    (readSlot (applyUpsert (.obj []) .accessToken .production "x") .accessToken
        .production = some (.str "x") ∧
      getKey (applyUpsert (.obj []) .accessToken .production "x") .clientCredentials =
        getKey (.obj []) .clientCredentials ∧
      readSlot (applyUpsert (.obj []) .accessToken .production "x") .accessToken
        .test = readSlot (.obj []) .accessToken .test) :=
  ⟨by decide, by decide,
    applyUpsert_writes_and_frames (.obj []) .accessToken .clientCredentials
      .production .test "x" (by decide) (by decide)⟩

/-- C1 counterexample: removing `AccessToken` while `ClientCredentials` remains
configured pushes a merged document in which the removed key is still present,
mapped to an entry whose `production` and `test` slots are both `undefined` — the
deep merge does not collapse to deleting the key, and the pushed document does
contain a token-key entry with both use-case slots empty. -/
theorem undeploy_removal_key_still_present_cex :
    undeployJwtCustomizerScript true
        ⟨some ⟨some "a", none⟩, some ⟨some "b", none⟩⟩ TokenKey.accessToken =
      .push (.obj
        [("jwt.accessToken", .obj [("production", .undef), ("test", .undef)]),
          ("jwt.clientCredentials", .obj [("production", .str "b")])]) ∧
    getKey (.obj
        [("jwt.accessToken", .obj [("production", .undef), ("test", .undef)]),
          ("jwt.clientCredentials", .obj [("production", .str "b")])])
      TokenKey.accessToken =
      some (.obj [("production", .undef), ("test", .undef)]) := by
  constructor
  · simp [undeployJwtCustomizerScript, JwtCustomizers.lookup, configuredCount,
      applyRemoval, removalPatch, getJwtCustomizerScripts, scriptsFields, entrySlots,
      deepmergeD, mergeFields, DocVal.isMergeableObject, DocVal.objFields, hasFieldD,
      getFieldD, lookupField, setField, TokenKey.keyName]
  · simp [getKey, TokenKey.keyName, lookupField]

/-- C1 as amended: for every configured store and configured key, the removal merge
of `undeployJwtCustomizerScript` clears both use-case slots of the removed key to
`undefined` (so no script remains under it), but the token-key entry itself stays
present in the merged document, and when at least one other customizer remains
configured this merged document is what gets pushed. -/
theorem applyRemoval_clears_slots_but_keeps_key (cs : JwtCustomizers) (k : TokenKey)
    (hk : (cs.lookup k).isSome = true) :
    readSlot (applyRemoval (getJwtCustomizerScripts cs) k) k .production =
      some .undef ∧
    readSlot (applyRemoval (getJwtCustomizerScripts cs) k) k .test = some .undef ∧
    (getKey (applyRemoval (getJwtCustomizerScripts cs) k) k).isSome = true ∧
    (1 < configuredCount cs →
      undeployJwtCustomizerScript true cs k =
        .push (applyRemoval (getJwtCustomizerScripts cs) k)) := by
  obtain ⟨e, he⟩ := Option.isSome_iff_exists.mp hk
  have hs := lookupField_scripts cs k
  rw [he] at hs
  have hentryP :
      lookupField (setField (setField (entrySlots e) "production" DocVal.undef)
        "test" DocVal.undef) "production" = some .undef := by
    rw [lookupField_setField_ne _ _ _ _ (by decide), lookupField_setField_self]
  have hentryT :
      lookupField (setField (setField (entrySlots e) "production" DocVal.undef)
        "test" DocVal.undef) "test" = some .undef :=
    lookupField_setField_self _ _ _
  rw [applyRemoval, removalPatch,
    deepmergeD_singlePatch _ k.keyName (.obj [("production", .undef), ("test", .undef)])
      rfl]
  refine ⟨?_, ?_, ?_, ?_⟩
  · simp [readSlot, getKey, getJwtCustomizerScripts, hasFieldD, getFieldD,
      DocVal.objFields, DocVal.isMergeableObject, hs, lookupField_setField_self,
      deepmergeD_removalEntry, UseCase.name, hentryP]
  · simp [readSlot, getKey, getJwtCustomizerScripts, hasFieldD, getFieldD,
      DocVal.objFields, DocVal.isMergeableObject, hs, lookupField_setField_self,
      deepmergeD_removalEntry, UseCase.name, hentryT]
  · simp [getKey, getJwtCustomizerScripts, hasFieldD, DocVal.objFields, hs,
      lookupField_setField_self]
  · intro hcount
    have hne : ¬ configuredCount cs = 1 := by omega
    simp [undeployJwtCustomizerScript, he, hne, applyRemoval, removalPatch,
      deepmergeD_singlePatch _ k.keyName
        (.obj [("production", .undef), ("test", .undef)]) rfl]

/-- Witness for the amended C1 at a concrete input. -/
theorem applyRemoval_clears_slots_but_keeps_key_witness :
    ((⟨some ⟨some "a", none⟩, some ⟨some "b", none⟩⟩ : JwtCustomizers).lookup
        .accessToken).isSome = true ∧
    (readSlot
        (applyRemoval
          (getJwtCustomizerScripts ⟨some ⟨some "a", none⟩, some ⟨some "b", none⟩⟩)
          .accessToken) .accessToken .production = some .undef ∧
      readSlot
        (applyRemoval
          (getJwtCustomizerScripts ⟨some ⟨some "a", none⟩, some ⟨some "b", none⟩⟩)
          .accessToken) .accessToken .test = some .undef ∧
      (getKey
        (applyRemoval
          (getJwtCustomizerScripts ⟨some ⟨some "a", none⟩, some ⟨some "b", none⟩⟩)
          .accessToken) .accessToken).isSome = true ∧
      (1 < configuredCount ⟨some ⟨some "a", none⟩, some ⟨some "b", none⟩⟩ →
        undeployJwtCustomizerScript true
            ⟨some ⟨some "a", none⟩, some ⟨some "b", none⟩⟩ .accessToken =
          .push
            (applyRemoval
              (getJwtCustomizerScripts
                ⟨some ⟨some "a", none⟩, some ⟨some "b", none⟩⟩) .accessToken))) :=
  ⟨rfl,
    applyRemoval_clears_slots_but_keeps_key
      ⟨some ⟨some "a", none⟩, some ⟨some "b", none⟩⟩ .accessToken rfl⟩

/-- C6: given the cloud mode is active and the key is configured,
`undeployJwtCustomizerScript` signals full teardown (deletes the remote worker
instead of pushing a document) exactly when the removed key is the last configured
customizer of any kind. -/
theorem undeploy_teardown_iff_last (cs : JwtCustomizers) (k : TokenKey)
    (hk : (cs.lookup k).isSome = true) :
    (undeployJwtCustomizerScript true cs k = .teardown ↔
      ∀ k' : TokenKey, (cs.lookup k').isSome = true → k' = k) := by
  rcases cs with ⟨a, c⟩
  cases k <;> cases a <;> cases c <;>
    simp_all [undeployJwtCustomizerScript, JwtCustomizers.lookup, configuredCount,
      tokenKey_forall]

/-- Witness for C6 at a concrete input. -/
theorem undeploy_teardown_iff_last_witness :
    ((⟨some ⟨some "a", none⟩, none⟩ : JwtCustomizers).lookup .accessToken).isSome =
        true ∧
    (undeployJwtCustomizerScript true (⟨some ⟨some "a", none⟩, none⟩ : JwtCustomizers)
        .accessToken = .teardown ↔
      ∀ k' : TokenKey,
        ((⟨some ⟨some "a", none⟩, none⟩ : JwtCustomizers).lookup k').isSome = true →
          k' = .accessToken) :=
  ⟨rfl, undeploy_teardown_iff_last ⟨some ⟨some "a", none⟩, none⟩ .accessToken rfl⟩

/-- JavaScript values exchanged with the sandbox: the value the evaluated script
leaves for the trailing `getCustomJwtClaims;` expression, the invocation payload
and the value returned by the entry point. Functions are opaque and carry a tag. -/
inductive JsVal where
  | undef
  | nullv
  | bool (b : Bool)
  | num (n : Int)
  | str (s : String)
  | arr (elems : List JsVal)
  | obj (fields : List (String × JsVal))
  | func (tag : Nat)

/-- The `typeof v === "function"` test performed on the evaluated binding. -/
def JsVal.isFunction : JsVal → Bool
  | .func _ => true
  | _ => false

/-- The `String(v)` coercion used by `buildErrorResponse` on non-native thrown
values. Object and array printing is approximated by the JavaScript default
coercions; no claim depends on the exact text. -/
def JsVal.stringify : JsVal → String
  | .undef => "undefined"
  | .nullv => "null"
  | .bool b => if b then "true" else "false"
  | .num n => toString n
  | .str s => s
  | .arr _ => "[array]"
  | .obj _ => "[object Object]"
  | .func _ => "[function]"

/-- The runtime type name `zod` reports for a non-record value. -/
def JsVal.typeName : JsVal → String
  | .undef => "undefined"
  | .nullv => "null"
  | .bool _ => "boolean"
  | .num _ => "number"
  | .str _ => "string"
  | .arr _ => "array"
  | .obj _ => "object"
  | .func _ => "function"

/-- Model of `z.record(z.unknown()).parse(result)`: only a plain string-keyed
object parses; any other shape (string, array, null, number, function, undefined)
raises a `ZodError` carrying an invalid-type issue. -/
def zodRecordParse : JsVal → Except (List String) (List (String × JsVal))
  | .obj fs => .ok fs
  | v => .error ["Expected record, received " ++ v.typeName]

/-- The native-error classes relevant to the catch block of `runScriptInLocalVm`:
`instanceof SyntaxError`, `instanceof TypeError`, anything else native. -/
inductive ErrClass where
  | syntaxError
  | typeError
  | referenceError
  | plainError
deriving DecidableEq, Repr

/-- A native-style error object (captured by `util.types.isNativeError`). The
`hostRealm` flag records whether the error was constructed in the host realm:
per the comment on `buildErrorResponse` in the source, an error coming out of a
`node:vm` context is a native error but fails the host `instanceof` checks,
because the vm context has its own intrinsics. -/
structure NativeError where
  errClass : ErrClass
  hostRealm : Bool
  message : String
  stack : Option String
deriving DecidableEq, Repr

/-- A value thrown inside the `try` block of `runScriptInLocalVm`: a host-realm
`ZodError` (only `z.record(...).parse` throws one there), any native error, or an
arbitrary non-error value thrown by the script. -/
inductive Thrown where
  | zodError (issues : List String)
  | nativeError (e : NativeError)
  | value (v : JsVal)

/-- The JSON error body placed in the `ResponseError` blob: the `ZodError` branch
stringifies an object with `message` and `errors` keys, and `buildErrorResponse`
stringifies `message` plus, for native errors, the `stack` property
(`JSON.stringify` drops a key whose value is `undefined`). -/
structure ErrorBody where
  message : String
  errors : Option (List String)
  stack : Option String
deriving DecidableEq, Repr

/-- The classified failure thrown to the caller: the HTTP status of the wrapped
`Response` together with its JSON body. -/
structure ErrResponse where
  status : Nat
  body : ErrorBody
deriving DecidableEq, Repr

/-- Embedding of `buildErrorResponse`: a native error (also one coming from the
vm realm) yields its `message` and `stack`; any other thrown value is
stringified. A `ZodError` is a native error, but the catch block never hands one
to `buildErrorResponse`; its branch is included for totality. -/
def buildErrorResponse : Thrown → ErrorBody
  | .nativeError e => ⟨e.message, none, e.stack⟩
  | .zodError issues => ⟨"zod error", some issues, none⟩
  | .value v => ⟨v.stringify, none, none⟩

/-- The `error instanceof SyntaxError || error instanceof TypeError` test of the
catch block: true only for a native error of one of those classes constructed in
the host realm. -/
def isHostSyntaxOrTypeError : Thrown → Bool
  | .nativeError e =>
    e.hostRealm && (e.errClass = ErrClass.syntaxError || e.errClass = ErrClass.typeError)
  | _ => false

/-- Embedding of the catch block of `runScriptInLocalVm`: a `ZodError` becomes a
`ResponseError` with status 400 and body `message: Invalid input` plus the zod
issues; every other thrown value becomes a `ResponseError` whose status is 422
when the error is a host-realm `SyntaxError` or `TypeError` and 500 otherwise,
with body built by `buildErrorResponse`. -/
def catchClassify : Thrown → ErrResponse
  | .zodError issues => ⟨400, ⟨"Invalid input", some issues, none⟩⟩
  | e => ⟨if isHostSyntaxOrTypeError e then 422 else 500, buildErrorResponse e⟩

/-- A JavaScript object together with its frozen state, as produced by
`Object.freeze`. Used for the two sandbox context objects. -/
structure JsObj where
  frozen : Bool
  fields : List (String × JsVal)

/-- A property mutation a script could attempt on a context object. -/
inductive JsMutation where
  | set (key : String) (v : JsVal)
  | del (key : String)

/-- JavaScript field update on sandbox-value field lists. -/
def setFieldJ : List (String × JsVal) → String → JsVal → List (String × JsVal)
  | [], key, v => [(key, v)]
  | (k, w) :: rest, key, v =>
    if k = key then (key, v) :: rest else (k, w) :: setFieldJ rest key v

/-- Semantics of one attempted mutation against a context object: `Object.freeze`
makes property addition, update and deletion silent no-ops (the vm scripts run in
sloppy mode, so no error is raised either). -/
def applyMutation (o : JsObj) : JsMutation → JsObj
  | .set key v => if o.frozen then o else ⟨o.frozen, setFieldJ o.fields key v⟩
  | .del key =>
    if o.frozen then o else ⟨o.frozen, o.fields.filter (fun p => !(p.1 = key))⟩

/-- A sequence of attempted mutations. -/
def applyMutations (o : JsObj) (ms : List JsMutation) : JsObj :=
  ms.foldl applyMutation o

/-- Embedding of the module-level `globalContext` of the library:
`Object.freeze` applied to an object exposing exactly one capability, the `fetch`
wrapper (an opaque function value). -/
def globalContext : JsObj :=
  ⟨true, [("fetch", .func 0)]⟩

/-- One `runInNewContext` call as issued by `runScriptInLocalVm`: the code
string, the contextified object, and the `timeout` option when one is passed. -/
structure VmCallSpec where
  code : String
  ctx : JsObj
  timeout : Option Nat

/-- Embedding of `CustomJwtFetcher`: the execution payload handed to
`runScriptInLocalVm`. In the source union type, `context` exists only for the
access-token variant; here it is a field whose value is ignored for the other
token types. -/
structure CustomJwtFetcher where
  script : String
  tokenType : TokenKey
  token : JsVal
  context : JsVal
  environmentVariables : JsVal

/-- Embedding of the payload restriction of `runScriptInLocalVm`:
`pick(data, token, context, environmentVariables)` when the token type is
the access-token type, and `pick(data, token, environmentVariables)` —
which never mentions `context` — otherwise. -/
def buildPayload (data : CustomJwtFetcher) : JsVal :=
  if data.tokenType = TokenKey.accessToken then
    .obj [("token", data.token), ("context", data.context),
      ("environmentVariables", data.environmentVariables)]
  else
    .obj [("token", data.token), ("environmentVariables", data.environmentVariables)]

/-- Outcome of the first `runInNewContext` call (script-body evaluation followed
by the trailing `getCustomJwtClaims;` expression): a value, or a thrown error
(for example a vm-realm `ReferenceError` when no such binding exists, or a
`SyntaxError` when the script text does not parse). -/
inductive EvalOutcome where
  | ok (v : JsVal)
  | throws (e : Thrown)

/-- Outcome of the second `runInNewContext` call (entry-point invocation): a
value, the vm timeout error after the 3000 ms budget, or a thrown error. -/
inductive InvokeOutcome where
  | ok (v : JsVal)
  | timeout
  | throws (e : Thrown)

/-- The abstract behaviour of the untrusted script under the two vm calls. The
embedding does not interpret JavaScript; each claim constrains these outcomes. -/
structure VmBehavior where
  evalResult : EvalOutcome
  invokeResult : InvokeOutcome

/-- The host-realm `TypeError` thrown by `runScriptInLocalVm` itself when the
evaluated binding is not callable. The stack string stands in for the trace
captured at the throw site. -/
def entryPointTypeError : NativeError :=
  ⟨.typeError, true, "The script does not have a function named `getCustomJwtClaims`",
    some "TypeError: The script does not have a function named getCustomJwtClaims"⟩

/-- The host-realm timeout error raised by `node:vm` when the invocation call
exceeds its `timeout: 3000` option (`ERR_SCRIPT_EXECUTION_TIMEOUT`); it is a
plain `Error`, not a `SyntaxError` or `TypeError`. -/
def vmTimeoutError : NativeError :=
  ⟨.plainError, true, "Script execution timed out after 3000ms",
    some "Error: Script execution timed out after 3000ms"⟩

/-- The result of one embedded run: the value returned to the caller (or the
classified `ResponseError`), together with the trace of `runInNewContext` calls
actually issued, in order, with the options they were given. -/
structure RunOutcome where
  result : Except ErrResponse (List (String × JsVal))
  vmCalls : List VmCallSpec

/-- Embedding of `runScriptInLocalVm`. The first vm call evaluates
`data.script + ";getCustomJwtClaims;"` against the frozen `globalContext` with no
timeout option; a non-callable binding raises the entry-point `TypeError`; the
second vm call invokes the entry point against a fresh frozen context exposing
exactly the pair of the entry point and the restricted payload, under
`timeout: 3000`; the returned value must parse as a string-keyed record; every
thrown value is classified by the catch block (`catchClassify`). -/
def runScriptInLocalVm (data : CustomJwtFetcher) (vm : VmBehavior) : RunOutcome :=
  let evalCall : VmCallSpec :=
    ⟨data.script ++ ";getCustomJwtClaims;", globalContext, none⟩
  match vm.evalResult with
  | .throws e => ⟨.error (catchClassify e), [evalCall]⟩
  | .ok f =>
    if f.isFunction = false then
      ⟨.error (catchClassify (.nativeError entryPointTypeError)), [evalCall]⟩
    else
      let payload := buildPayload data
      let invokeCall : VmCallSpec :=
        ⟨"(async () => getCustomJwtClaims(payload))();",
          ⟨true, [("getCustomJwtClaims", f), ("payload", payload)]⟩, some 3000⟩
      match vm.invokeResult with
      | .timeout =>
        ⟨.error (catchClassify (.nativeError vmTimeoutError)), [evalCall, invokeCall]⟩
      | .throws e => ⟨.error (catchClassify e), [evalCall, invokeCall]⟩
      | .ok v =>
        match zodRecordParse v with
        | .error issues =>
          ⟨.error (catchClassify (.zodError issues)), [evalCall, invokeCall]⟩
        | .ok fields => ⟨.ok fields, [evalCall, invokeCall]⟩

/-- The key list of a payload object. -/
def JsVal.keys : JsVal → List String
  | .obj fs => fs.map Prod.fst
  | _ => []

theorem applyMutations_frozen (o : JsObj) (ms : List JsMutation)
    (h : o.frozen = true) : applyMutations o ms = o := by
  induction ms with
  | nil => rfl
  | cons m rest ih =>
    have h1 : applyMutation o m = o := by cases m <;> simp [applyMutation, h]
    show applyMutations (applyMutation o m) rest = o
    rw [h1]
    exact ih

/-- C2: whenever the script evaluates to a callable entry point and its invocation
returns a value that is not a plain string-keyed mapping (for example a string or
an array), `runScriptInLocalVm` fails through the result-shape validation branch:
the `ZodError` raised by `z.record(z.unknown()).parse` is classified as status 400
with message `Invalid input` and the zod issues attached — the realization in this
code of the `InvalidResultShape` classification — and never through any other
error class (no other branch produces this response). -/
theorem runScript_invalid_result_shape (data : CustomJwtFetcher) (vm : VmBehavior)
    (f v : JsVal) (he : vm.evalResult = .ok f) (hf : f.isFunction = true)
    (hi : vm.invokeResult = .ok v) (hv : ∀ fs, v ≠ .obj fs) :
    (runScriptInLocalVm data vm).result =
      .error ⟨400, ⟨"Invalid input",
        some ["Expected record, received " ++ v.typeName], none⟩⟩ := by
  unfold runScriptInLocalVm
  rw [he, hi]
  simp only [hf, Bool.true_eq_false, if_false]
  cases v <;> simp [zodRecordParse, catchClassify]
  exact absurd rfl (hv _)

/-- Witness for C2 at a concrete input: a script returning a string. -/
theorem runScript_invalid_result_shape_witness :
    ((⟨.ok (.func 1), .ok (.str "oops")⟩ : VmBehavior).evalResult =
        .ok (.func 1)) ∧
    (JsVal.func 1).isFunction = true ∧
    ((⟨.ok (.func 1), .ok (.str "oops")⟩ : VmBehavior).invokeResult =
        .ok (.str "oops")) ∧
    (∀ fs, JsVal.str "oops" ≠ .obj fs) ∧
    (runScriptInLocalVm ⟨"s", .accessToken, .undef, .undef, .undef⟩
        ⟨.ok (.func 1), .ok (.str "oops")⟩).result =
      .error ⟨400, ⟨"Invalid input",
        some ["Expected record, received " ++ (JsVal.str "oops").typeName],
        none⟩⟩ :=
  ⟨rfl, rfl, rfl, fun _ h => JsVal.noConfusion h,
    runScript_invalid_result_shape ⟨"s", .accessToken, .undef, .undef, .undef⟩
      ⟨.ok (.func 1), .ok (.str "oops")⟩ (.func 1) (.str "oops") rfl rfl rfl
      (fun _ h => JsVal.noConfusion h)⟩

/-- C3 as amended: the classified failures of the execution entry point carry an
HTTP-style status and a JSON body, but a `ZodError` (schema-validation) failure
yields status 400 — not 422 — with body `message: Invalid input` plus the zod
issues; only a host-realm `SyntaxError` or `TypeError` yields 422; every other
(opaque) runtime failure yields 500, and for native errors the body is `message`
plus `stack` rather than `message` plus `errors`. -/
theorem runScript_error_statuses (data : CustomJwtFetcher) (vm : VmBehavior)
    (f : JsVal) (e : Thrown) (issues : List String) (ne1 ne2 : NativeError)
    (v : JsVal) (he : vm.evalResult = .ok f) (hf : f.isFunction = true)
    (hi : vm.invokeResult = .throws e)
    (h1 : isHostSyntaxOrTypeError (.nativeError ne1) = true)
    (h2 : isHostSyntaxOrTypeError (.nativeError ne2) = false) :
    (runScriptInLocalVm data vm).result = .error (catchClassify e) ∧
    catchClassify (.zodError issues) = ⟨400, ⟨"Invalid input", some issues, none⟩⟩ ∧
    catchClassify (.nativeError ne1) = ⟨422, ⟨ne1.message, none, ne1.stack⟩⟩ ∧
    catchClassify (.nativeError ne2) = ⟨500, ⟨ne2.message, none, ne2.stack⟩⟩ ∧
    catchClassify (.value v) = ⟨500, ⟨v.stringify, none, none⟩⟩ := by
  refine ⟨?_, rfl, ?_, ?_, rfl⟩
  · unfold runScriptInLocalVm
    rw [he, hi]
    simp [hf]
  · simp [catchClassify, h1, buildErrorResponse]
  · simp [catchClassify, h2, buildErrorResponse]

/-- Witness for the amended C3 at concrete inputs. -/
theorem runScript_error_statuses_witness :
    ((⟨.ok (.func 1), .throws (.value (.str "thrown"))⟩ : VmBehavior).evalResult =
        .ok (.func 1)) ∧
    (JsVal.func 1).isFunction = true ∧
    ((⟨.ok (.func 1), .throws (.value (.str "thrown"))⟩ : VmBehavior).invokeResult =
        .throws (.value (.str "thrown"))) ∧
    isHostSyntaxOrTypeError
        (.nativeError ⟨.typeError, true, "bad type", none⟩) = true ∧
    isHostSyntaxOrTypeError
        (.nativeError ⟨.plainError, true, "boom", some "trace"⟩) = false ∧
    ((runScriptInLocalVm ⟨"s", .accessToken, .undef, .undef, .undef⟩
          ⟨.ok (.func 1), .throws (.value (.str "thrown"))⟩).result =
        .error (catchClassify (.value (.str "thrown"))) ∧
      catchClassify (.zodError ["issue"]) =
        ⟨400, ⟨"Invalid input", some ["issue"], none⟩⟩ ∧
      catchClassify (.nativeError ⟨.typeError, true, "bad type", none⟩) =
        ⟨422, ⟨"bad type", none, none⟩⟩ ∧
      catchClassify (.nativeError ⟨.plainError, true, "boom", some "trace"⟩) =
        ⟨500, ⟨"boom", none, some "trace"⟩⟩ ∧
      catchClassify (.value (.num 7)) = ⟨500, ⟨(JsVal.num 7).stringify, none, none⟩⟩) :=
  ⟨rfl, rfl, rfl, rfl, rfl,
    runScript_error_statuses ⟨"s", .accessToken, .undef, .undef, .undef⟩
      ⟨.ok (.func 1), .throws (.value (.str "thrown"))⟩ (.func 1)
      (.value (.str "thrown")) ["issue"] ⟨.typeError, true, "bad type", none⟩
      ⟨.plainError, true, "boom", some "trace"⟩ (.num 7) rfl rfl rfl rfl rfl⟩

/-- C3 counterexample: a `ZodError`-classified failure (the case the claim calls
`InvalidInput`) is returned with status 400, not 422. -/
theorem runScript_zod_status_not_422_cex :
    ((runScriptInLocalVm ⟨"s", .accessToken, .undef, .undef, .undef⟩
        ⟨.ok (.func 1), .ok (.str "nope")⟩).result =
      .error ⟨400, ⟨"Invalid input", some ["Expected record, received string"],
        none⟩⟩) ∧
    (400 : Nat) ≠ 422 := ⟨rfl, by decide⟩

/-- C4 as amended: the 3000 ms deadline is attached only to the entry-point
invocation call — the trace of vm calls shows the script-body evaluation call
issued with no timeout option and the invocation call with `timeout: 3000` — and
when the invocation hits the deadline the run fails with the vm timeout error
classified as an opaque 500 failure, so no claims are returned to the caller. -/
theorem runScript_timeout_only_invocation (data : CustomJwtFetcher)
    (vm : VmBehavior) (f : JsVal) (he : vm.evalResult = .ok f)
    (hf : f.isFunction = true) (hi : vm.invokeResult = .timeout) :
    (runScriptInLocalVm data vm).vmCalls.map VmCallSpec.timeout =
      [none, some 3000] ∧
    (runScriptInLocalVm data vm).result =
      .error ⟨500, ⟨"Script execution timed out after 3000ms", none,
        some "Error: Script execution timed out after 3000ms"⟩⟩ := by
  constructor
  · unfold runScriptInLocalVm
    rw [he, hi]
    simp [hf]
  · unfold runScriptInLocalVm
    rw [he, hi]
    simp [hf, catchClassify, isHostSyntaxOrTypeError, buildErrorResponse,
      vmTimeoutError]

/-- Witness for the amended C4 at a concrete input. -/
theorem runScript_timeout_only_invocation_witness :
    ((⟨.ok (.func 1), .timeout⟩ : VmBehavior).evalResult = .ok (.func 1)) ∧
    (JsVal.func 1).isFunction = true ∧
    ((⟨.ok (.func 1), .timeout⟩ : VmBehavior).invokeResult = .timeout) ∧
    ((runScriptInLocalVm ⟨"while(true);", .accessToken, .undef, .undef, .undef⟩
          ⟨.ok (.func 1), .timeout⟩).vmCalls.map VmCallSpec.timeout =
        [none, some 3000] ∧
      (runScriptInLocalVm ⟨"while(true);", .accessToken, .undef, .undef, .undef⟩
          ⟨.ok (.func 1), .timeout⟩).result =
        .error ⟨500, ⟨"Script execution timed out after 3000ms", none,
          some "Error: Script execution timed out after 3000ms"⟩⟩) :=
  ⟨rfl, rfl, rfl,
    runScript_timeout_only_invocation
      ⟨"while(true);", .accessToken, .undef, .undef, .undef⟩
      ⟨.ok (.func 1), .timeout⟩ (.func 1) rfl rfl rfl⟩

/-- C4 counterexample: in a run that reaches both vm calls, the deadline does not
bound script-body evaluation plus invocation — the evaluation call is issued with
no timeout option at all, so it is false that every vm call runs under the
3000 ms deadline. -/
theorem runScript_deadline_not_total_cex :
    ((runScriptInLocalVm ⟨"x", .accessToken, .undef, .undef, .undef⟩
        ⟨.ok (.func 1), .ok (.obj [])⟩).vmCalls.map VmCallSpec.timeout =
      [none, some 3000]) ∧
    ¬ (∀ c ∈ (runScriptInLocalVm ⟨"x", .accessToken, .undef, .undef, .undef⟩
        ⟨.ok (.func 1), .ok (.obj [])⟩).vmCalls, c.timeout = some 3000) := by
  refine ⟨rfl, fun h => ?_⟩
  have h1 := h ⟨"x" ++ ";getCustomJwtClaims;", globalContext, none⟩
  simp [runScriptInLocalVm, JsVal.isFunction, zodRecordParse, buildPayload] at h1

/-- C5 as amended: the classified error body carries the message of the thrown
error, but for native-style errors `buildErrorResponse` also embeds the thrown
error's `stack` property in the JSON body; only non-native thrown values produce
a body without a stack. -/
theorem buildErrorResponse_keeps_stack (e : NativeError) (v : JsVal) :
    buildErrorResponse (.nativeError e) = ⟨e.message, none, e.stack⟩ ∧
    buildErrorResponse (.value v) = ⟨v.stringify, none, none⟩ := ⟨rfl, rfl⟩

/-- C5 counterexample: a script-thrown native error with a stack trace reaches the
caller with that exact stack string inside the JSON error body. -/
theorem runScript_stack_in_body_cex :
    (runScriptInLocalVm ⟨"s", .accessToken, .undef, .undef, .undef⟩
        ⟨.ok (.func 1),
          .throws (.nativeError
            ⟨.plainError, false, "boom", some "at evil.js:1:1"⟩)⟩).result =
      .error ⟨500, ⟨"boom", none, some "at evil.js:1:1"⟩⟩ := rfl

/-- C8: for every execution whose token type is not the access-token type the
payload handed to the entry point is built without any `context` field (the key
is absent, not null), while for the access-token type the payload keys are
exactly `token`, `context`, `environmentVariables`. -/
theorem buildPayload_context_field (data d2 : CustomJwtFetcher)
    (hne : data.tokenType ≠ TokenKey.accessToken)
    (h2 : d2.tokenType = TokenKey.accessToken) :
    buildPayload data =
      .obj [("token", data.token),
        ("environmentVariables", data.environmentVariables)] ∧
    "context" ∉ (buildPayload data).keys ∧
    (buildPayload d2).keys = ["token", "context", "environmentVariables"] := by
  refine ⟨?_, ?_, ?_⟩
  · simp [buildPayload, hne]
  · simp [buildPayload, hne, JsVal.keys]
  · simp [buildPayload, h2, JsVal.keys]

/-- Witness for C8 at concrete inputs. -/
theorem buildPayload_context_field_witness :
    ((⟨"s", .clientCredentials, .num 1, .num 2, .num 3⟩ :
        CustomJwtFetcher).tokenType ≠ TokenKey.accessToken) ∧
    ((⟨"s", .accessToken, .num 1, .num 2, .num 3⟩ :
        CustomJwtFetcher).tokenType = TokenKey.accessToken) ∧
    (buildPayload ⟨"s", .clientCredentials, .num 1, .num 2, .num 3⟩ =
        .obj [("token", .num 1), ("environmentVariables", .num 3)] ∧
      "context" ∉ (buildPayload ⟨"s", .clientCredentials, .num 1, .num 2,
        .num 3⟩).keys ∧
      (buildPayload ⟨"s", .accessToken, .num 1, .num 2, .num 3⟩).keys =
        ["token", "context", "environmentVariables"]) :=
  ⟨by decide, rfl,
    buildPayload_context_field ⟨"s", .clientCredentials, .num 1, .num 2, .num 3⟩
      ⟨"s", .accessToken, .num 1, .num 2, .num 3⟩ (by decide) rfl⟩

/-- C9 as amended: only a scope that binds the entry-point name to a non-callable
value fails with the entry-point `TypeError` classification (status 422, the
fixed message); a scope where the name is absent makes the evaluation itself
throw a vm-realm `ReferenceError`, which the catch block classifies as a generic
runtime failure (status 500) carrying that error's own message. -/
theorem runScript_entry_point_check (data : CustomJwtFetcher)
    (vmA vmB : VmBehavior) (f : JsVal) (e : NativeError)
    (heA : vmA.evalResult = .ok f) (hfA : f.isFunction = false)
    (heB : vmB.evalResult = .throws (.nativeError e)) (hrB : e.hostRealm = false) :
    (runScriptInLocalVm data vmA).result =
      .error ⟨422, ⟨entryPointTypeError.message, none,
        entryPointTypeError.stack⟩⟩ ∧
    (runScriptInLocalVm data vmB).result =
      .error ⟨500, ⟨e.message, none, e.stack⟩⟩ := by
  constructor
  · unfold runScriptInLocalVm
    rw [heA]
    simp [hfA, catchClassify, isHostSyntaxOrTypeError, buildErrorResponse,
      entryPointTypeError]
  · unfold runScriptInLocalVm
    rw [heB]
    simp [catchClassify, isHostSyntaxOrTypeError, buildErrorResponse, hrB]

/-- Witness for the amended C9 at concrete inputs. -/
theorem runScript_entry_point_check_witness :
    ((⟨.ok (.num 5), .ok (.obj [])⟩ : VmBehavior).evalResult = .ok (.num 5)) ∧
    (JsVal.num 5).isFunction = false ∧
    ((⟨.throws (.nativeError ⟨.referenceError, false, "nope", none⟩),
        .ok (.obj [])⟩ : VmBehavior).evalResult =
      .throws (.nativeError ⟨.referenceError, false, "nope", none⟩)) ∧
    (⟨.referenceError, false, "nope", none⟩ : NativeError).hostRealm = false ∧
    ((runScriptInLocalVm ⟨"s", .accessToken, .undef, .undef, .undef⟩
          ⟨.ok (.num 5), .ok (.obj [])⟩).result =
        .error ⟨422, ⟨entryPointTypeError.message, none,
          entryPointTypeError.stack⟩⟩ ∧
      (runScriptInLocalVm ⟨"s", .accessToken, .undef, .undef, .undef⟩
          ⟨.throws (.nativeError ⟨.referenceError, false, "nope", none⟩),
            .ok (.obj [])⟩).result =
        .error ⟨500, ⟨"nope", none, none⟩⟩) :=
  ⟨rfl, rfl, rfl, rfl,
    runScript_entry_point_check ⟨"s", .accessToken, .undef, .undef, .undef⟩
      ⟨.ok (.num 5), .ok (.obj [])⟩
      ⟨.throws (.nativeError ⟨.referenceError, false, "nope", none⟩),
        .ok (.obj [])⟩ (.num 5) ⟨.referenceError, false, "nope", none⟩
      rfl rfl rfl rfl⟩

/-- C9 counterexample: an absent entry-point name (the evaluation throws a
vm-realm `ReferenceError`) is classified as a generic 500 runtime failure with
the `ReferenceError` message, while a present-but-non-callable binding yields the
422 entry-point `TypeError` — the two cases do not share one entry-point-missing
classification. -/
theorem runScript_entry_point_absent_cex :
    ((runScriptInLocalVm ⟨"var x = 1", .accessToken, .undef, .undef, .undef⟩
        ⟨.throws (.nativeError ⟨.referenceError, false,
            "getCustomJwtClaims is not defined",
            some "ReferenceError: getCustomJwtClaims is not defined"⟩),
          .ok (.obj [])⟩).result =
      .error ⟨500, ⟨"getCustomJwtClaims is not defined", none,
        some "ReferenceError: getCustomJwtClaims is not defined"⟩⟩) ∧
    ((runScriptInLocalVm
        ⟨"var getCustomJwtClaims = 5", .accessToken, .undef, .undef, .undef⟩
        ⟨.ok (.num 5), .ok (.obj [])⟩).result =
      .error ⟨422,
        ⟨"The script does not have a function named `getCustomJwtClaims`", none,
          some "TypeError: The script does not have a function named getCustomJwtClaims"⟩⟩) ∧
    (500 : Nat) ≠ 422 := ⟨rfl, rfl, by decide⟩

/-- C10: the evaluation scope is seeded with the module-level frozen
`globalContext` exposing exactly one capability (`fetch`); a frozen context
object silently ignores every attempted property addition, deletion or
replacement (in particular `fetch` cannot be replaced); and the invocation-phase
scope is a fresh frozen object exposing exactly the pair of the entry point and
the restricted payload. -/
theorem sandbox_context_isolation (data : CustomJwtFetcher) (vm : VmBehavior)
    (f : JsVal) (ms : List JsMutation)
    (he : vm.evalResult = .ok f) (hf : f.isFunction = true) :
    globalContext.frozen = true ∧
    globalContext.fields.map Prod.fst = ["fetch"] ∧
    applyMutations globalContext ms = globalContext ∧
    (runScriptInLocalVm data vm).vmCalls.map VmCallSpec.ctx =
      [globalContext,
        ⟨true, [("getCustomJwtClaims", f), ("payload", buildPayload data)]⟩] := by
  refine ⟨rfl, rfl, applyMutations_frozen _ _ rfl, ?_⟩
  unfold runScriptInLocalVm
  rw [he]
  simp only [hf, Bool.true_eq_false, if_false]
  cases hi : vm.invokeResult with
  | ok v => rcases hz : zodRecordParse v with _ | fs <;> simp [hz]
  | timeout => simp
  | throws e => simp

/-- Witness for C10 at a concrete input. -/
theorem sandbox_context_isolation_witness :
    ((⟨.ok (.func 1), .ok (.obj [])⟩ : VmBehavior).evalResult = .ok (.func 1)) ∧
    (JsVal.func 1).isFunction = true ∧
    (globalContext.frozen = true ∧
      globalContext.fields.map Prod.fst = ["fetch"] ∧
      applyMutations globalContext
          [.set "fetch" (.func 9), .del "fetch", .set "evil" (.num 0)] =
        globalContext ∧
      (runScriptInLocalVm ⟨"s", .accessToken, .undef, .undef, .undef⟩
          ⟨.ok (.func 1), .ok (.obj [])⟩).vmCalls.map VmCallSpec.ctx =
        [globalContext,
          ⟨true, [("getCustomJwtClaims", .func 1),
            ("payload", buildPayload ⟨"s", .accessToken, .undef, .undef,
              .undef⟩)]⟩]) :=
  ⟨rfl, rfl,
    sandbox_context_isolation ⟨"s", .accessToken, .undef, .undef, .undef⟩
      ⟨.ok (.func 1), .ok (.obj [])⟩ (.func 1)
      [.set "fetch" (.func 9), .del "fetch", .set "evil" (.num 0)] rfl rfl⟩
